import Mathlib

/-!
Shallow embedding of `src/data_generator.py` (repository
AakashChettay/customer-churn-prediction).

The script draws per-record random values column by column, derives
`multipleLines`, `monthlyCharges`, `totalCharges` and the `churn` label,
assembles a 20-column table, and writes it as CSV after creating the
destination directory.  Randomness is modelled by passing every random
draw in explicitly: a `RecordDraws` value holds, per record, the value of
each categorical draw together with the continuous draws used by the
derived columns, and the generator is a deterministic function of those
draws.  Machine floats are modelled as exact rationals; `np.round(x, 2)`
is modelled as ideal half-to-even rounding at two decimals.
-/

namespace ChurnGen

/-- Values of the `gender` column (`np.random.choice(['Male', 'Female'])`). -/
inductive Gender
  | Male
  | Female
deriving DecidableEq

/-- Yes/No columns (`Partner`, `Dependents`, `PhoneService`, `PaperlessBilling`). -/
inductive YesNo
  | Yes
  | No
deriving DecidableEq

/-- Values of the `MultipleLines` column. -/
inductive MultipleLines
  | No
  | Yes
  | NoPhoneService
deriving DecidableEq

/-- Values of the `InternetService` column (`['DSL', 'Fiber optic', 'No']`). -/
inductive InternetService
  | DSL
  | FiberOptic
  | No
deriving DecidableEq

/-- Values of the six service add-on columns (`['No', 'Yes', 'No internet service']`). -/
inductive AddonValue
  | No
  | Yes
  | NoInternetService
deriving DecidableEq

/-- Values of the `Contract` column (`['Month-to-month', 'One year', 'Two year']`). -/
inductive Contract
  | MonthToMonth
  | OneYear
  | TwoYear
deriving DecidableEq

/-- Values of the `PaymentMethod` column. -/
inductive PaymentMethod
  | ElectronicCheck
  | MailedCheck
  | BankTransferAutomatic
  | CreditCardAutomatic
deriving DecidableEq

/-- All random draws consumed for one record.  Categorical draws are recorded
as the drawn value itself; the continuous draws feeding the derived columns
(`np.random.uniform`, `np.random.normal`, `np.random.rand`) are exact
rationals.  `multipleLinesDraw` is the `np.random.choice(['No', 'Yes'])`
inside the `MultipleLines` loop (`true` stands for `'Yes'`). -/
structure RecordDraws where
  gender : Gender
  seniorCitizen : Fin 2
  partner : YesNo
  dependents : YesNo
  tenure : ℕ
  phoneService : YesNo
  multipleLinesDraw : Bool
  internetService : InternetService
  onlineSecurity : AddonValue
  onlineBackup : AddonValue
  deviceProtection : AddonValue
  techSupport : AddonValue
  streamingTV : AddonValue
  streamingMovies : AddonValue
  contract : Contract
  paperlessBilling : YesNo
  paymentMethod : PaymentMethod
  mcBase : ℚ
  mcFiberAdd : ℚ
  mcNoSub : ℚ
  tcNoise : ℚ
  churnU : ℚ
deriving DecidableEq

/-- The ranges of the samplers that produce a `RecordDraws`:
`np.random.randint(1, 72)` gives `tenure ∈ [1, 71]`,
`np.random.uniform(a, b)` gives a value in `[a, b)`, and
`np.random.rand()` gives a value in `[0, 1)`.  The Gaussian noise
`tcNoise` is unconstrained. -/
def ValidDraws (d : RecordDraws) : Prop :=
  1 ≤ d.tenure ∧ d.tenure ≤ 71 ∧
    20 ≤ d.mcBase ∧ d.mcBase < 120 ∧
    10 ≤ d.mcFiberAdd ∧ d.mcFiberAdd < 30 ∧
    10 ≤ d.mcNoSub ∧ d.mcNoSub < 20 ∧
    0 ≤ d.churnU ∧ d.churnU < 1

instance (d : RecordDraws) : Decidable (ValidDraws d) := by
  unfold ValidDraws; infer_instance

/-- `np.round` at zero decimals: round half to even on an exact rational. -/
def roundHalfEven (x : ℚ) : ℤ :=
  if x - (Int.floor x : ℚ) < 1 / 2 then Int.floor x
  else if 1 / 2 < x - (Int.floor x : ℚ) then Int.floor x + 1
  else if Int.floor x % 2 = 0 then Int.floor x else Int.floor x + 1

/-- `np.round(x, 2)`: round half to even at two decimal places. -/
def round2 (x : ℚ) : ℚ := (roundHalfEven (100 * x) : ℚ) / 100

/-- Lines 53–58: `'No phone service'` when `phone_service[i] == 'No'`,
otherwise the fresh `np.random.choice(['No', 'Yes'])` draw. -/
def multipleLines (d : RecordDraws) : MultipleLines :=
  if d.phoneService = YesNo.No then MultipleLines.NoPhoneService
  else if d.multipleLinesDraw then MultipleLines.Yes else MultipleLines.No

/-- Lines 85–92: base `uniform(20, 120)` draw, plus `uniform(10, 30)` for
`'Fiber optic'` records, minus `uniform(10, 20)` for `'No'` internet
records, rounded to 2 decimals after the adjustments. -/
def monthlyCharges (d : RecordDraws) : ℚ :=
  round2 (d.mcBase
    + (if d.internetService = InternetService.FiberOptic then d.mcFiberAdd else 0)
    - (if d.internetService = InternetService.No then d.mcNoSub else 0))

/-- Lines 96–102: `monthly_charges * tenure` plus `normal(0, 50)` noise,
negative entries set to 0, then rounded to 2 decimals. -/
def totalCharges (d : RecordDraws) : ℚ :=
  round2 (max 0 (monthlyCharges d * (d.tenure : ℚ) + d.tcNoise))

/-- Lines 107–121: churn probability accumulated additively from 0 in the
source's mutation order (+0.3 month-to-month, +0.2 tenure < 12,
+0.15 monthly charges > 80, +0.2 no tech support, −0.3 two-year). -/
def churnProb (d : RecordDraws) : ℚ :=
  0
    + (if d.contract = Contract.MonthToMonth then 3 / 10 else 0)
    + (if d.tenure < 12 then 2 / 10 else 0)
    + (if monthlyCharges d > 80 then 15 / 100 else 0)
    + (if d.techSupport = AddonValue.No then 2 / 10 else 0)
    - (if d.contract = Contract.TwoYear then 3 / 10 else 0)

/-- Line 125: `(np.random.rand(num_samples) < churn_prob).astype(int)`. -/
def churn (d : RecordDraws) : ℕ :=
  if d.churnU < churnProb d then 1 else 0

/-- The 20 columns of the generated table. -/
inductive ColumnId
  | gender
  | seniorCitizen
  | partner
  | dependents
  | tenure
  | phoneService
  | multipleLines
  | internetService
  | onlineSecurity
  | onlineBackup
  | deviceProtection
  | techSupport
  | streamingTV
  | streamingMovies
  | contract
  | paperlessBilling
  | paymentMethod
  | monthlyCharges
  | totalCharges
  | churn
deriving DecidableEq

/-- The column order of the `pd.DataFrame` literal at lines 129–150
(Python dicts preserve insertion order, and pandas uses it as the
column order). -/
def codeColumnOrder : List ColumnId :=
  [ColumnId.gender, ColumnId.seniorCitizen, ColumnId.partner, ColumnId.dependents,
    ColumnId.tenure, ColumnId.phoneService, ColumnId.multipleLines,
    ColumnId.internetService, ColumnId.onlineSecurity, ColumnId.onlineBackup,
    ColumnId.deviceProtection, ColumnId.techSupport, ColumnId.streamingTV,
    ColumnId.streamingMovies, ColumnId.contract, ColumnId.paperlessBilling,
    ColumnId.paymentMethod, ColumnId.monthlyCharges, ColumnId.totalCharges,
    ColumnId.churn]

/-- The column order as enumerated in the specification's data-model table
(gender, seniorCitizen, partner, dependents, phoneService, paperlessBilling,
tenureMonths, multipleLines, internetService, the six add-ons, contract,
paymentMethod, monthlyCharges, totalCharges, churn).  This definition
follows the spec's words, for comparison with `codeColumnOrder`. -/
def specClaimColumnOrder : List ColumnId :=
  [ColumnId.gender, ColumnId.seniorCitizen, ColumnId.partner, ColumnId.dependents,
    ColumnId.phoneService, ColumnId.paperlessBilling, ColumnId.tenure,
    ColumnId.multipleLines, ColumnId.internetService, ColumnId.onlineSecurity,
    ColumnId.onlineBackup, ColumnId.deviceProtection, ColumnId.techSupport,
    ColumnId.streamingTV, ColumnId.streamingMovies, ColumnId.contract,
    ColumnId.paymentMethod, ColumnId.monthlyCharges, ColumnId.totalCharges,
    ColumnId.churn]

/-- CSV header names, exactly the `pd.DataFrame` dict keys. -/
def headerName : ColumnId → String
  | ColumnId.gender => "gender"
  | ColumnId.seniorCitizen => "SeniorCitizen"
  | ColumnId.partner => "Partner"
  | ColumnId.dependents => "Dependents"
  | ColumnId.tenure => "tenure"
  | ColumnId.phoneService => "PhoneService"
  | ColumnId.multipleLines => "MultipleLines"
  | ColumnId.internetService => "InternetService"
  | ColumnId.onlineSecurity => "OnlineSecurity"
  | ColumnId.onlineBackup => "OnlineBackup"
  | ColumnId.deviceProtection => "DeviceProtection"
  | ColumnId.techSupport => "TechSupport"
  | ColumnId.streamingTV => "StreamingTV"
  | ColumnId.streamingMovies => "StreamingMovies"
  | ColumnId.contract => "Contract"
  | ColumnId.paperlessBilling => "PaperlessBilling"
  | ColumnId.paymentMethod => "PaymentMethod"
  | ColumnId.monthlyCharges => "MonthlyCharges"
  | ColumnId.totalCharges => "TotalCharges"
  | ColumnId.churn => "Churn"

/-- A table cell: a categorical string, an integer, or a rational number. -/
inductive Cell
  | str : String → Cell
  | int : ℤ → Cell
  | rat : ℚ → Cell
deriving DecidableEq

/-- String form of a `gender` value, as written to the table. -/
def genderStr : Gender → String
  | Gender.Male => "Male"
  | Gender.Female => "Female"

/-- String form of a Yes/No value. -/
def yesNoStr : YesNo → String
  | YesNo.Yes => "Yes"
  | YesNo.No => "No"

/-- String form of a `MultipleLines` value. -/
def multipleLinesStr : MultipleLines → String
  | MultipleLines.No => "No"
  | MultipleLines.Yes => "Yes"
  | MultipleLines.NoPhoneService => "No phone service"

/-- String form of an `InternetService` value. -/
def internetServiceStr : InternetService → String
  | InternetService.DSL => "DSL"
  | InternetService.FiberOptic => "Fiber optic"
  | InternetService.No => "No"

/-- String form of a service add-on value. -/
def addonStr : AddonValue → String
  | AddonValue.No => "No"
  | AddonValue.Yes => "Yes"
  | AddonValue.NoInternetService => "No internet service"

/-- String form of a `Contract` value. -/
def contractStr : Contract → String
  | Contract.MonthToMonth => "Month-to-month"
  | Contract.OneYear => "One year"
  | Contract.TwoYear => "Two year"

/-- String form of a `PaymentMethod` value. -/
def paymentMethodStr : PaymentMethod → String
  | PaymentMethod.ElectronicCheck => "Electronic check"
  | PaymentMethod.MailedCheck => "Mailed check"
  | PaymentMethod.BankTransferAutomatic => "Bank transfer (automatic)"
  | PaymentMethod.CreditCardAutomatic => "Credit card (automatic)"

/-- The value a record contributes to a given column. -/
def cellOf : ColumnId → RecordDraws → Cell
  | ColumnId.gender, d => Cell.str (genderStr d.gender)
  | ColumnId.seniorCitizen, d => Cell.int (d.seniorCitizen.val : ℤ)
  | ColumnId.partner, d => Cell.str (yesNoStr d.partner)
  | ColumnId.dependents, d => Cell.str (yesNoStr d.dependents)
  | ColumnId.tenure, d => Cell.int (d.tenure : ℤ)
  | ColumnId.phoneService, d => Cell.str (yesNoStr d.phoneService)
  | ColumnId.multipleLines, d => Cell.str (multipleLinesStr (multipleLines d))
  | ColumnId.internetService, d => Cell.str (internetServiceStr d.internetService)
  | ColumnId.onlineSecurity, d => Cell.str (addonStr d.onlineSecurity)
  | ColumnId.onlineBackup, d => Cell.str (addonStr d.onlineBackup)
  | ColumnId.deviceProtection, d => Cell.str (addonStr d.deviceProtection)
  | ColumnId.techSupport, d => Cell.str (addonStr d.techSupport)
  | ColumnId.streamingTV, d => Cell.str (addonStr d.streamingTV)
  | ColumnId.streamingMovies, d => Cell.str (addonStr d.streamingMovies)
  | ColumnId.contract, d => Cell.str (contractStr d.contract)
  | ColumnId.paperlessBilling, d => Cell.str (yesNoStr d.paperlessBilling)
  | ColumnId.paymentMethod, d => Cell.str (paymentMethodStr d.paymentMethod)
  | ColumnId.monthlyCharges, d => Cell.rat (monthlyCharges d)
  | ColumnId.totalCharges, d => Cell.rat (totalCharges d)
  | ColumnId.churn, d => Cell.int (churn d : ℤ)

/-- One data row of the table, cells in the DataFrame's column order. -/
def recordRow (d : RecordDraws) : List Cell :=
  codeColumnOrder.map (fun c => cellOf c d)

/-- The table body for `m` records, record `i` built from draw vector
`draws i`. -/
def assembleTable (m : ℕ) (draws : ℕ → RecordDraws) : List (List Cell) :=
  (List.range m).map (fun i => recordRow (draws i))

/-- The CSV header row (`data.to_csv(..., index=False)` writes the column
names and no index column). -/
def csvHeader : List String := codeColumnOrder.map headerName

/-- Errors surfaced by the modelled run: `TypeError` for a non-integer
sample count, `ValueError` for a negative one (both raised by
`np.random.choice` at the first draw), and `FileNotFoundError` from
`os.makedirs('')`. -/
inductive GenError
  | typeError
  | valueError
  | fileNotFound
deriving DecidableEq

/-- The size check numpy's samplers apply to `num_samples` at the first
draw (line 30): a non-integer size raises `TypeError`, a negative one
raises `ValueError`, any other size (including 0) is accepted.  The
sample count is modelled as a rational so that non-integer arguments are
representable. -/
def checkSize (n : ℚ) : Except GenError ℕ :=
  if n.den = 1 then
    if n.num < 0 then Except.error GenError.valueError
    else Except.ok n.num.toNat
  else Except.error GenError.typeError

/-- A written CSV file: header names plus data rows. -/
structure CsvFile where
  header : List String
  rows : List (List Cell)
deriving DecidableEq

/-- The filesystem as the model sees it: the set of existing directories
and the written files, most recent first.  Paths are component lists. -/
structure FS where
  dirs : List (List String)
  files : List (List String × CsvFile)
deriving DecidableEq

/-- The nonempty prefixes of a path, i.e. the directories
`os.makedirs` creates recursively. -/
def prefixesOf : List String → List (List String)
  | [] => []
  | x :: xs => [x] :: (prefixesOf xs).map (fun l => x :: l)

/-- `os.makedirs(d, exist_ok=True)` (line 163): creating the empty path
raises `FileNotFoundError`; otherwise the directory and all its ancestors
exist afterwards and no error is raised even if they already existed. -/
def makedirs (d : List String) (fs : FS) : Except GenError FS :=
  if d = [] then Except.error GenError.fileNotFound
  else Except.ok ⟨fs.dirs ++ prefixesOf d, fs.files⟩

/-- `data.to_csv(output_path, index=False)` (line 167): write (overwrite)
the file at the path.  The newest entry shadows older ones. -/
def writeCsv (p : List String) (f : CsvFile) (fs : FS) : FS :=
  ⟨fs.dirs, (p, f) :: fs.files⟩

/-- Lines 162–167: take the `os.path.dirname` of the output path, create
it with `os.makedirs(..., exist_ok=True)`, then write the CSV. -/
def saveTable (p : List String) (f : CsvFile) (fs : FS) : Except GenError FS :=
  match makedirs p.dropLast fs with
  | Except.error e => Except.error e
  | Except.ok fs2 => Except.ok (writeCsv p f fs2)

/-- Default of the `num_samples` parameter (line 12). -/
def defaultNumSamples : ℚ := 1000

/-- Line 159: `os.path.join(os.path.dirname(__file__), '..', 'data',
'customer_churn_data.csv')`, the default output path, relative to the
script's directory. -/
def defaultOutputPath (scriptDir : List String) : List String :=
  scriptDir ++ ["..", "data", "customer_churn_data.csv"]

/-- Lines 155–159: use the default path when `output_path` is `None`. -/
def resolveOutputPath (scriptDir : List String) (outputPath : Option (List String)) :
    List String :=
  match outputPath with
  | none => defaultOutputPath scriptDir
  | some p => p

/-- The sample count the `__main__` block passes (line 178). -/
def mainNumSamples : ℚ := 2000

/-- The output path the `__main__` block passes (line 178): the same
`os.path.join(os.path.dirname(__file__), '..', 'data',
'customer_churn_data.csv')` expression as the in-function default. -/
def mainOutputPath (scriptDir : List String) : List String :=
  scriptDir ++ ["..", "data", "customer_churn_data.csv"]

/-- One step of `..`-resolution over path components. -/
def normStep (acc : List String) (c : String) : List String :=
  if c = ".." then acc.dropLast else acc ++ [c]

/-- Resolve `..` components of a path (ideal semantics, no symlinks),
to compare unnormalized `os.path.join` results. -/
def normalizePath (p : List String) : List String :=
  p.foldl normStep []

/-- `generate_customer_churn_data` (lines 12–168): validate the sample
count at the first numpy draw, build the table from the per-record draw
vectors, resolve the output path, create its directory and write the CSV. -/
def generate_customer_churn_data (numSamples : ℚ) (outputPath : Option (List String))
    (scriptDir : List String) (draws : ℕ → RecordDraws) (fs : FS) :
    Except GenError FS :=
  match checkSize numSamples with
  | Except.error e => Except.error e
  | Except.ok m =>
      saveTable (resolveOutputPath scriptDir outputPath)
        ⟨csvHeader, assembleTable m draws⟩ fs

/-- The draws a column reads besides other columns' values: for each
column, the proposition that two draw vectors agree on that column's own
fresh randomness.  The derived columns' own draws are the continuous
draws introduced for them (`monthlyCharges` its three uniforms,
`totalCharges` its Gaussian noise, `churn` its uniform). -/
def ownDrawEq : ColumnId → RecordDraws → RecordDraws → Prop
  | ColumnId.gender, d1, d2 => d1.gender = d2.gender
  | ColumnId.seniorCitizen, d1, d2 => d1.seniorCitizen = d2.seniorCitizen
  | ColumnId.partner, d1, d2 => d1.partner = d2.partner
  | ColumnId.dependents, d1, d2 => d1.dependents = d2.dependents
  | ColumnId.tenure, d1, d2 => d1.tenure = d2.tenure
  | ColumnId.phoneService, d1, d2 => d1.phoneService = d2.phoneService
  | ColumnId.multipleLines, d1, d2 => d1.multipleLinesDraw = d2.multipleLinesDraw
  | ColumnId.internetService, d1, d2 => d1.internetService = d2.internetService
  | ColumnId.onlineSecurity, d1, d2 => d1.onlineSecurity = d2.onlineSecurity
  | ColumnId.onlineBackup, d1, d2 => d1.onlineBackup = d2.onlineBackup
  | ColumnId.deviceProtection, d1, d2 => d1.deviceProtection = d2.deviceProtection
  | ColumnId.techSupport, d1, d2 => d1.techSupport = d2.techSupport
  | ColumnId.streamingTV, d1, d2 => d1.streamingTV = d2.streamingTV
  | ColumnId.streamingMovies, d1, d2 => d1.streamingMovies = d2.streamingMovies
  | ColumnId.contract, d1, d2 => d1.contract = d2.contract
  | ColumnId.paperlessBilling, d1, d2 => d1.paperlessBilling = d2.paperlessBilling
  | ColumnId.paymentMethod, d1, d2 => d1.paymentMethod = d2.paymentMethod
  | ColumnId.monthlyCharges, d1, d2 =>
      d1.mcBase = d2.mcBase ∧ d1.mcFiberAdd = d2.mcFiberAdd ∧ d1.mcNoSub = d2.mcNoSub
  | ColumnId.totalCharges, d1, d2 => d1.tcNoise = d2.tcNoise
  | ColumnId.churn, d1, d2 => d1.churnU = d2.churnU

/-- A column has no hard value dependency on any other column exactly when
its own fresh draws determine its value. -/
def columnOwnDetermined (c : ColumnId) : Prop :=
  ∀ d1 d2 : RecordDraws, ownDrawEq c d1 d2 → cellOf c d1 = cellOf c d2

/-- The 16 columns whose value is the drawn value itself (every column
except the derived `multipleLines`, `monthlyCharges`, `totalCharges`,
`churn`). -/
def drawnColumns : List ColumnId :=
  [ColumnId.gender, ColumnId.seniorCitizen, ColumnId.partner, ColumnId.dependents,
    ColumnId.tenure, ColumnId.phoneService, ColumnId.internetService,
    ColumnId.onlineSecurity, ColumnId.onlineBackup, ColumnId.deviceProtection,
    ColumnId.techSupport, ColumnId.streamingTV, ColumnId.streamingMovies,
    ColumnId.contract, ColumnId.paperlessBilling, ColumnId.paymentMethod]

/-- A concrete in-range draw vector, used for witnesses. -/
def exampleDraws : RecordDraws where
  gender := Gender.Male
  seniorCitizen := 0
  partner := YesNo.Yes
  dependents := YesNo.No
  tenure := 20
  phoneService := YesNo.Yes
  multipleLinesDraw := false
  internetService := InternetService.DSL
  onlineSecurity := AddonValue.No
  onlineBackup := AddonValue.Yes
  deviceProtection := AddonValue.No
  techSupport := AddonValue.Yes
  streamingTV := AddonValue.No
  streamingMovies := AddonValue.No
  contract := Contract.OneYear
  paperlessBilling := YesNo.Yes
  paymentMethod := PaymentMethod.ElectronicCheck
  mcBase := 50
  mcFiberAdd := 15
  mcNoSub := 12
  tcNoise := 0
  churnU := 1 / 2

/-- `exampleDraws` with fiber-optic internet: same `monthlyCharges` draws,
different `internetService`. -/
def fiberDraws : RecordDraws :=
  { exampleDraws with internetService := InternetService.FiberOptic }

/-- `exampleDraws` without phone service: same `multipleLines` coin,
different `phoneService`. -/
def phoneNoDraws : RecordDraws :=
  { exampleDraws with phoneService := YesNo.No }

/-- An in-range draw vector with a negative churn probability: two-year
contract, tenure 20, monthly charges 50, tech support present. -/
def negProbDraws : RecordDraws :=
  { exampleDraws with contract := Contract.TwoYear }

/-- An in-range draw vector attaining the maximal churn probability
0.85: month-to-month contract, tenure 5, monthly charges 110, no tech
support. -/
def maxProbDraws : RecordDraws :=
  { exampleDraws with
      contract := Contract.MonthToMonth
      tenure := 5
      mcBase := 110
      techSupport := AddonValue.No }

/-- A constant stream of per-record draw vectors, used for witnesses. -/
def exampleDrawFun : ℕ → RecordDraws := fun _ => exampleDraws

/-- An empty filesystem, used for witnesses. -/
def emptyFS : FS := ⟨[], []⟩

/-! ### Helper lemmas -/

theorem roundHalfEven_nonneg {x : ℚ} (hx : 0 ≤ x) : 0 ≤ roundHalfEven x := by
  have hf : (0 : ℤ) ≤ Int.floor x := Int.floor_nonneg.mpr hx
  unfold roundHalfEven
  split_ifs <;> omega

theorem round2_nonneg {x : ℚ} (hx : 0 ≤ x) : 0 ≤ round2 x := by
  unfold round2
  have : (0 : ℚ) ≤ (roundHalfEven (100 * x) : ℚ) := by
    exact_mod_cast roundHalfEven_nonneg (by positivity)
  positivity

theorem churnProb_le (d : RecordDraws) : churnProb d ≤ 85 / 100 := by
  unfold churnProb
  split_ifs <;> norm_num

theorem churnProb_ge (d : RecordDraws) : -(3 / 10) ≤ churnProb d := by
  unfold churnProb
  split_ifs <;> norm_num

theorem self_mem_prefixesOf : ∀ (d : List String), d ≠ [] → d ∈ prefixesOf d := by
  intro d
  induction d with
  | nil => intro h; exact absurd rfl h
  | cons x xs ih =>
      intro _
      unfold prefixesOf
      cases hxs : xs with
      | nil => simp
      | cons y ys =>
          have hmem : xs ∈ prefixesOf xs := ih (by simp [hxs])
          rw [← hxs]
          exact List.mem_cons_of_mem _ (List.mem_map_of_mem (fun l => x :: l) hmem)

theorem checkSize_natCast (n : ℕ) : checkSize (n : ℚ) = Except.ok n := by
  unfold checkSize
  rw [Rat.den_natCast, Rat.num_natCast]
  simp

theorem mc_exampleDraws : monthlyCharges exampleDraws = 50 := by
  simp [monthlyCharges, exampleDraws, round2, roundHalfEven]
  norm_num

theorem mc_fiberDraws : monthlyCharges fiberDraws = 65 := by
  simp [monthlyCharges, fiberDraws, exampleDraws, round2, roundHalfEven]
  norm_num

theorem mc_negProbDraws : monthlyCharges negProbDraws = 50 := by
  simp [monthlyCharges, negProbDraws, exampleDraws, round2, roundHalfEven]
  norm_num

theorem mc_maxProbDraws : monthlyCharges maxProbDraws = 110 := by
  simp [monthlyCharges, maxProbDraws, exampleDraws, round2, roundHalfEven]
  norm_num

theorem churnProb_negProbDraws : churnProb negProbDraws = -(3 / 10) := by
  unfold churnProb
  rw [mc_negProbDraws]
  norm_num [show negProbDraws.contract = Contract.TwoYear from rfl,
    show negProbDraws.tenure = 20 from rfl,
    show negProbDraws.techSupport = AddonValue.Yes from rfl]
  simp

theorem churnProb_maxProbDraws : churnProb maxProbDraws = 85 / 100 := by
  unfold churnProb
  rw [mc_maxProbDraws]
  norm_num [show maxProbDraws.contract = Contract.MonthToMonth from rfl,
    show maxProbDraws.tenure = 5 from rfl,
    show maxProbDraws.techSupport = AddonValue.No from rfl]
  simp

theorem validDraws_negProbDraws : ValidDraws negProbDraws := by
  simp [ValidDraws, negProbDraws, exampleDraws]
  norm_num

theorem validDraws_maxProbDraws : ValidDraws maxProbDraws := by
  simp [ValidDraws, maxProbDraws, exampleDraws]
  norm_num

theorem churnProb_ne_max_of_contract {d : RecordDraws}
    (h : d.contract ≠ Contract.MonthToMonth) : churnProb d ≠ 85 / 100 := by
  unfold churnProb
  simp only [h, if_false]
  split_ifs <;> norm_num

theorem churnProb_ne_max_of_tenure {d : RecordDraws}
    (h : ¬ d.tenure < 12) : churnProb d ≠ 85 / 100 := by
  unfold churnProb
  simp only [h, if_false]
  split_ifs <;> norm_num

theorem churnProb_ne_max_of_charges {d : RecordDraws}
    (h : ¬ 80 < monthlyCharges d) : churnProb d ≠ 85 / 100 := by
  unfold churnProb
  simp only [gt_iff_lt, h, if_false]
  split_ifs <;> norm_num

theorem churnProb_ne_max_of_support {d : RecordDraws}
    (h : d.techSupport ≠ AddonValue.No) : churnProb d ≠ 85 / 100 := by
  unfold churnProb
  simp only [h, if_false]
  split_ifs <;> norm_num

theorem churnProb_ne_min_of_contract {d : RecordDraws}
    (h : d.contract ≠ Contract.TwoYear) : churnProb d ≠ -(3 / 10) := by
  unfold churnProb
  simp only [h, if_false]
  split_ifs <;> norm_num

theorem churnProb_ne_min_of_tenure {d : RecordDraws}
    (h : d.tenure < 12) : churnProb d ≠ -(3 / 10) := by
  unfold churnProb
  simp only [h, if_true]
  split_ifs <;> norm_num

theorem churnProb_ne_min_of_charges {d : RecordDraws}
    (h : 80 < monthlyCharges d) : churnProb d ≠ -(3 / 10) := by
  unfold churnProb
  simp only [gt_iff_lt, h, if_true]
  split_ifs <;> norm_num

theorem churnProb_ne_min_of_support {d : RecordDraws}
    (h : d.techSupport = AddonValue.No) : churnProb d ≠ -(3 / 10) := by
  unfold churnProb
  simp only [h, if_true]
  split_ifs <;> norm_num

/-! ### Claim theorems -/

/-- C1: for every record, the churn probability is exactly 0 plus 0.3 if
the contract is month-to-month, plus 0.2 if tenure < 12, plus 0.15 if the
monthly charges exceed 80, plus 0.2 if tech support is "No", minus 0.3 if
the contract is two-year, with no other adjustment; the churn label is 1
exactly when the record's uniform draw is strictly below that
probability, and is 0 otherwise. -/
theorem C1_churn_rule (d : RecordDraws) :
    churnProb d =
        0 + (if d.contract = Contract.MonthToMonth then 3 / 10 else 0)
          + (if d.tenure < 12 then 2 / 10 else 0)
          + (if monthlyCharges d > 80 then 15 / 100 else 0)
          + (if d.techSupport = AddonValue.No then 2 / 10 else 0)
          - (if d.contract = Contract.TwoYear then 3 / 10 else 0)
      ∧ (churn d = 1 ↔ d.churnU < churnProb d)
      ∧ (churn d = 0 ∨ churn d = 1) := by
  refine ⟨rfl, ?_, ?_⟩
  · unfold churn
    split_ifs with h <;> simp [h]
  · unfold churn
    split_ifs <;> simp

/-- C2 counterexample: the DataFrame's column order differs from the
order enumerated in the claim (in the code, tenure comes fifth, before
PhoneService, and PaperlessBilling comes after Contract). -/
theorem C2_counterexample_column_order : codeColumnOrder ≠ specClaimColumnOrder := by
  decide

/-- C2 (amended): for every integer sampleCount ≥ 1 the assembled table
has exactly sampleCount rows of exactly 20 cells each, and the columns
appear in the code's order gender, seniorCitizen, partner, dependents,
tenure, phoneService, multipleLines, internetService, the six add-ons,
contract, paperlessBilling, paymentMethod, monthlyCharges, totalCharges,
churn. -/
theorem C2_table_shape (n : ℚ) (hden : n.den = 1) (hpos : 1 ≤ n)
    (draws : ℕ → RecordDraws) :
    ∃ m : ℕ, checkSize n = Except.ok m ∧ (m : ℚ) = n ∧
      (assembleTable m draws).length = m ∧
      (∀ row ∈ assembleTable m draws, row.length = 20) ∧
      codeColumnOrder =
        [ColumnId.gender, ColumnId.seniorCitizen, ColumnId.partner,
          ColumnId.dependents, ColumnId.tenure, ColumnId.phoneService,
          ColumnId.multipleLines, ColumnId.internetService, ColumnId.onlineSecurity,
          ColumnId.onlineBackup, ColumnId.deviceProtection, ColumnId.techSupport,
          ColumnId.streamingTV, ColumnId.streamingMovies, ColumnId.contract,
          ColumnId.paperlessBilling, ColumnId.paymentMethod, ColumnId.monthlyCharges,
          ColumnId.totalCharges, ColumnId.churn] := by
  have h0 : (0 : ℚ) ≤ n := le_trans zero_le_one hpos
  have hnum : (0 : ℤ) ≤ n.num := Rat.num_nonneg.mpr h0
  refine ⟨n.num.toNat, ?_, ?_, ?_, ?_, rfl⟩
  · unfold checkSize
    rw [if_pos hden, if_neg (not_lt.mpr hnum)]
  · have h2 : ((n.num : ℤ) : ℚ) = n := by
      conv_rhs => rw [← Rat.num_div_den n]
      rw [hden]
      simp
    calc ((n.num.toNat : ℕ) : ℚ) = ((n.num.toNat : ℤ) : ℚ) := by push_cast; ring
      _ = ((n.num : ℤ) : ℚ) := by rw [Int.toNat_of_nonneg hnum]
      _ = n := h2
  · simp [assembleTable]
  · intro row hrow
    simp only [assembleTable, List.mem_map] at hrow
    obtain ⟨i, _, hi⟩ := hrow
    rw [← hi]
    simp [recordRow, codeColumnOrder]

/-- C2 witness: instance of the amended claim at sampleCount 2. -/
theorem C2_table_shape_witness :
    ∃ m : ℕ, checkSize 2 = Except.ok m ∧ (m : ℚ) = 2 ∧
      (assembleTable m exampleDrawFun).length = m ∧
      (∀ row ∈ assembleTable m exampleDrawFun, row.length = 20) ∧
      codeColumnOrder =
        [ColumnId.gender, ColumnId.seniorCitizen, ColumnId.partner,
          ColumnId.dependents, ColumnId.tenure, ColumnId.phoneService,
          ColumnId.multipleLines, ColumnId.internetService, ColumnId.onlineSecurity,
          ColumnId.onlineBackup, ColumnId.deviceProtection, ColumnId.techSupport,
          ColumnId.streamingTV, ColumnId.streamingMovies, ColumnId.contract,
          ColumnId.paperlessBilling, ColumnId.paymentMethod, ColumnId.monthlyCharges,
          ColumnId.totalCharges, ColumnId.churn] :=
  C2_table_shape 2 rfl (by norm_num) exampleDrawFun

/-- C3 counterexample: `multipleLines` is not the only column with a hard
value dependency on another column: the `monthlyCharges` value is not
determined by its own three uniform draws (it also depends on the
`internetService` value, lines 88 and 90). -/
theorem C3_counterexample_charges_dependency :
    ¬ columnOwnDetermined ColumnId.monthlyCharges := by
  intro h
  have h2 := h exampleDraws fiberDraws ⟨rfl, rfl, rfl⟩
  rw [show cellOf ColumnId.monthlyCharges exampleDraws
      = Cell.rat (monthlyCharges exampleDraws) from rfl,
    show cellOf ColumnId.monthlyCharges fiberDraws
      = Cell.rat (monthlyCharges fiberDraws) from rfl,
    mc_exampleDraws, mc_fiberDraws] at h2
  simp only [Cell.rat.injEq] at h2
  exact absurd h2 (by norm_num)

/-- C3 (amended): for every record, if phoneService is "No" then
multipleLines is "No phone service", and otherwise multipleLines is "No"
or "Yes"; every directly drawn column's value is determined by its own
draw, while multipleLines is not (it depends on phoneService) — so
multipleLines is the only directly sampled column with a hard value
dependency, though derived columns such as monthlyCharges also depend on
other columns. -/
theorem C3_multiple_lines_rule :
    (∀ d : RecordDraws, d.phoneService = YesNo.No →
        multipleLines d = MultipleLines.NoPhoneService)
      ∧ (∀ d : RecordDraws, d.phoneService = YesNo.Yes →
          multipleLines d = MultipleLines.No ∨ multipleLines d = MultipleLines.Yes)
      ∧ (∀ c ∈ drawnColumns, columnOwnDetermined c)
      ∧ ¬ columnOwnDetermined ColumnId.multipleLines := by
  refine ⟨?_, ?_, ?_, ?_⟩
  · intro d h
    simp [multipleLines, h]
  · intro d h
    simp only [multipleLines, h]
    cases d.multipleLinesDraw <;> simp
  · intro c hc
    fin_cases hc <;>
      · intro d1 d2 h
        simp only [ownDrawEq] at h
        simp [cellOf, h]
  · intro h
    exact absurd (h exampleDraws phoneNoDraws rfl) (by decide)

/-- C3 witness: instance of the invariant at a concrete record without
phone service. -/
theorem C3_multiple_lines_rule_witness :
    multipleLines phoneNoDraws = MultipleLines.NoPhoneService :=
  C3_multiple_lines_rule.1 phoneNoDraws rfl

/-- C4: for every record, totalCharges is the 2-decimal rounding of the
0-clamped value monthlyCharges × tenure + noise, and is therefore
nonnegative. -/
theorem C4_total_charges_rule (d : RecordDraws) :
    totalCharges d = round2 (max 0 (monthlyCharges d * (d.tenure : ℚ) + d.tcNoise))
      ∧ 0 ≤ totalCharges d :=
  ⟨rfl, round2_nonneg (le_max_left 0 _)⟩

/-- C5 counterexample: no assignment of the feature draws makes the
accumulated churn probability exceed 1 (it is bounded by 0.85, since the
+0.3 and −0.3 contract adjustments are mutually exclusive). -/
theorem C5_counterexample_prob_exceeding_one :
    ¬ ∃ d : RecordDraws, churnProb d > 1 := by
  rintro ⟨d, hd⟩
  exact absurd hd (not_lt.mpr ((churnProb_le d).trans (by norm_num)))

/-- C5 (amended): the accumulated probability is never clamped: reachable
draw assignments give a negative probability, and a record with negative
probability can never churn; but the probability never exceeds 1 — it is
at most 0.85 for every assignment. -/
theorem C5_prob_unclamped :
    (∃ d : RecordDraws, ValidDraws d ∧ churnProb d < 0)
      ∧ (∀ d : RecordDraws, 0 ≤ d.churnU → churnProb d < 0 → churn d = 0)
      ∧ (∀ d : RecordDraws, churnProb d ≤ 85 / 100) := by
  refine ⟨⟨negProbDraws, validDraws_negProbDraws, ?_⟩, ?_, churnProb_le⟩
  · rw [churnProb_negProbDraws]
    norm_num
  · intro d hu hp
    unfold churn
    rw [if_neg (not_lt.mpr (le_of_lt (lt_of_lt_of_le hp hu)))]

/-- C5 witness: instance of the never-churns part at a concrete
two-year-contract record. -/
theorem C5_prob_unclamped_witness : churn negProbDraws = 0 :=
  C5_prob_unclamped.2.1 negProbDraws
    (by norm_num [negProbDraws, exampleDraws])
    (by rw [churnProb_negProbDraws]; norm_num)

/-- C6 counterexample: sampleCount = 0 is non-positive, yet generation
succeeds — numpy accepts size 0, an empty table is assembled and a
header-only file is written. -/
theorem C6_counterexample_zero_count :
    ∃ fs2, generate_customer_churn_data 0 (some ["data", "out.csv"]) ["root", "src"]
        exampleDrawFun emptyFS = Except.ok fs2 :=
  ⟨_, rfl⟩

/-- C6 (amended): for every negative or non-integer sampleCount the first
random draw fails, so generation does not proceed and no file is
written. -/
theorem C6_invalid_count_fails (n : ℚ) (h : n < 0 ∨ n.den ≠ 1)
    (path : Option (List String)) (sd : List String)
    (draws : ℕ → RecordDraws) (fs : FS) :
    ∃ e, generate_customer_churn_data n path sd draws fs = Except.error e := by
  unfold generate_customer_churn_data
  rcases h with h | h
  · by_cases hd : n.den = 1
    · have hn : n.num < 0 := by
        rw [← not_le]
        intro hc
        exact absurd (Rat.num_nonneg.mp hc) (not_le.mpr h)
      exact ⟨GenError.valueError, by simp [checkSize, hd, hn]⟩
    · exact ⟨GenError.typeError, by simp [checkSize, hd]⟩
  · exact ⟨GenError.typeError, by simp [checkSize, h]⟩

/-- C6 witness: instance of the amended claim at sampleCount −1. -/
theorem C6_invalid_count_fails_witness :
    ∃ e, generate_customer_churn_data (-1) none ["root", "src"] exampleDrawFun emptyFS
        = Except.error e :=
  C6_invalid_count_fails (-1) (Or.inl (by norm_num)) none ["root", "src"]
    exampleDrawFun emptyFS

/-- C7 counterexample: for a bare filename (whose containing directory is
the current directory) generation fails: `os.path.dirname` yields the
empty string and `os.makedirs('')` raises `FileNotFoundError`, so nothing
is written. -/
theorem C7_counterexample_bare_filename :
    generate_customer_churn_data 1 (some ["out.csv"]) ["root", "src"] exampleDrawFun
        emptyFS
      = Except.error GenError.fileNotFound := rfl

/-- C7 (amended): for every destination path with at least one directory
component, generation ensures the containing directory exists without
error (creating it recursively) and writes the CSV — header row plus the
data rows, no index column — at that path. -/
theorem C7_save_with_directory (p : List String) (hp : p.dropLast ≠ [])
    (n : ℕ) (sd : List String) (draws : ℕ → RecordDraws) (fs : FS) :
    ∃ fs2, generate_customer_churn_data (n : ℚ) (some p) sd draws fs = Except.ok fs2
      ∧ p.dropLast ∈ fs2.dirs
      ∧ fs2.files.head? = some (p, ⟨csvHeader, assembleTable n draws⟩) := by
  unfold generate_customer_churn_data
  rw [checkSize_natCast]
  unfold saveTable makedirs resolveOutputPath
  rw [if_neg hp]
  exact ⟨_, rfl, List.mem_append_right _ (self_mem_prefixesOf _ hp), rfl⟩

/-- C7 witness: instance of the amended claim at the path data/out.csv. -/
theorem C7_save_with_directory_witness :
    ∃ fs2, generate_customer_churn_data ((1 : ℕ) : ℚ) (some ["data", "out.csv"])
        ["root", "src"] exampleDrawFun emptyFS = Except.ok fs2
      ∧ (["data", "out.csv"] : List String).dropLast ∈ fs2.dirs
      ∧ fs2.files.head? = some (["data", "out.csv"],
          ⟨csvHeader, assembleTable 1 exampleDrawFun⟩) :=
  C7_save_with_directory ["data", "out.csv"] (by decide) 1 ["root", "src"]
    exampleDrawFun emptyFS

/-- C8: the entry point's sample-count default is 1000 and the standalone
block passes 2000; the standalone block's destination path is the very
same expression as the entry point's default, and that path resolves to
the data directory next to the program:
`<project-root>/data/customer_churn_data.csv`. -/
theorem C8_defaults :
    defaultNumSamples = 1000 ∧ mainNumSamples = 2000
      ∧ (∀ sd : List String, mainOutputPath sd = defaultOutputPath sd)
      ∧ (∀ root : List String,
          normalizePath (defaultOutputPath (root ++ ["src"])) =
            normalizePath root ++ ["data", "customer_churn_data.csv"])
      ∧ (∀ (sd : List String) (n : ℚ) (draws : ℕ → RecordDraws) (fs : FS),
          generate_customer_churn_data n (some (mainOutputPath sd)) sd draws fs =
            generate_customer_churn_data n none sd draws fs) := by
  refine ⟨rfl, rfl, fun sd => rfl, fun root => ?_, fun sd n draws fs => rfl⟩
  unfold defaultOutputPath normalizePath
  rw [show (root ++ ["src"]) ++ ["..", "data", "customer_churn_data.csv"]
      = root ++ ["src", "..", "data", "customer_churn_data.csv"] by simp]
  rw [List.foldl_append]
  generalize List.foldl normStep [] root = R
  show normStep (normStep (normStep (normStep R "src") "..") "data")
      "customer_churn_data.csv" = R ++ ["data", "customer_churn_data.csv"]
  rw [show normStep R "src" = R ++ ["src"] from if_neg (by decide)]
  rw [show normStep (R ++ ["src"]) ".." = (R ++ ["src"]).dropLast from if_pos rfl]
  rw [List.dropLast_concat]
  rw [show normStep R "data" = R ++ ["data"] from if_neg (by decide)]
  rw [show normStep (R ++ ["data"]) "customer_churn_data.csv"
      = (R ++ ["data"]) ++ ["customer_churn_data.csv"] from if_neg (by decide)]
  simp

/-- C9: for every record, monthlyCharges is the 2-decimal rounding —
applied only after both conditional adjustments — of the base uniform
draw, plus the fiber-optic add-on draw when internetService is
"Fiber optic", minus the markdown draw when internetService is "No". -/
theorem C9_monthly_charges_rule (d : RecordDraws) :
    monthlyCharges d =
      round2 (d.mcBase
        + (if d.internetService = InternetService.FiberOptic then d.mcFiberAdd else 0)
        - (if d.internetService = InternetService.No then d.mcNoSub else 0)) :=
  rfl

/-- C10: the accumulated churn probability always lies in [−0.3, 0.85];
it equals 0.85 exactly when the contract is month-to-month, tenure < 12,
monthly charges exceed 80 and tech support is "No" all at once (the +0.3
and −0.3 contract adjustments are mutually exclusive, so it can never
exceed 1), it equals −0.3 exactly when the contract is two-year and no
positive adjustment applies, and both extremes are attained by in-range
draw assignments. -/
theorem C10_prob_range :
    (∀ d : RecordDraws, -(3 / 10) ≤ churnProb d ∧ churnProb d ≤ 85 / 100)
      ∧ (∀ d : RecordDraws, (churnProb d = 85 / 100 ↔
          d.contract = Contract.MonthToMonth ∧ d.tenure < 12 ∧
            80 < monthlyCharges d ∧ d.techSupport = AddonValue.No))
      ∧ (∀ d : RecordDraws, (churnProb d = -(3 / 10) ↔
          d.contract = Contract.TwoYear ∧ 12 ≤ d.tenure ∧ monthlyCharges d ≤ 80 ∧
            (d.techSupport = AddonValue.Yes ∨
              d.techSupport = AddonValue.NoInternetService)))
      ∧ (∃ d : RecordDraws, ValidDraws d ∧ churnProb d = 85 / 100)
      ∧ (∃ d : RecordDraws, ValidDraws d ∧ churnProb d = -(3 / 10)) := by
  refine ⟨fun d => ⟨churnProb_ge d, churnProb_le d⟩, fun d => ⟨?_, ?_⟩,
    fun d => ⟨?_, ?_⟩,
    ⟨maxProbDraws, validDraws_maxProbDraws, churnProb_maxProbDraws⟩,
    ⟨negProbDraws, validDraws_negProbDraws, churnProb_negProbDraws⟩⟩
  · intro hp
    refine ⟨?_, ?_, ?_, ?_⟩
    · by_contra hA
      exact churnProb_ne_max_of_contract hA hp
    · by_contra hB
      exact churnProb_ne_max_of_tenure hB hp
    · by_contra hC
      exact churnProb_ne_max_of_charges hC hp
    · by_contra hD
      exact churnProb_ne_max_of_support hD hp
  · rintro ⟨hA, hB, hC, hD⟩
    unfold churnProb
    simp only [hA, hB, hD, gt_iff_lt, hC, if_true]
    norm_num
    simp
  · intro hp
    refine ⟨?_, ?_, ?_, ?_⟩
    · by_contra hE
      exact churnProb_ne_min_of_contract hE hp
    · rw [← not_lt]
      intro hB
      exact churnProb_ne_min_of_tenure hB hp
    · rw [← not_lt]
      intro hC
      exact churnProb_ne_min_of_charges hC hp
    · cases hts : d.techSupport
      · exact absurd hp (churnProb_ne_min_of_support hts)
      · exact Or.inl rfl
      · exact Or.inr rfl
  · rintro ⟨hE, hB, hC, hD⟩
    have hB2 : ¬ d.tenure < 12 := not_lt.mpr hB
    have hC2 : ¬ 80 < monthlyCharges d := not_lt.mpr hC
    have hD2 : d.techSupport ≠ AddonValue.No := by
      rcases hD with h | h <;> rw [h] <;> decide
    unfold churnProb
    simp only [hE, hB2, hD2, gt_iff_lt, hC2, if_false]
    norm_num
    simp

end ChurnGen
